import Mathlib

/-!
Shallow embedding of the cinema-tickets-javascript repository.

Source files embedded:
* `src/pairtest/lib/TicketTypeRequest.js` — the immutable ticket request
  value object (string ticket type, integer quantity), whose constructor
  validates the type against the list `['ADULT', 'CHILD', 'INFANT']` and
  the quantity with `Number.isInteger`.
* `src/pairtest/TicketService.js` — the purchase orchestrator
  `purchaseTickets(accountId, ticketTypeRequests)` with its private
  helpers `#isValidPurchaseRequest`, `#calculateTotalAmount` and
  `#calculateNumSeatsToReserve`.

Modelling decisions:
* JavaScript numbers supplied to the `TicketTypeRequest` constructor are
  modelled as `Rat`; `Number.isInteger(q)` becomes `q.den = 1`.  Account
  ids, quantities and amounts inside the service are `Int` (the
  constructor stores an integer, possibly negative).
* A thrown exception from a collaborator is modelled as `Except.error ()`;
  a returned value as `Except.ok v`.  `purchaseTickets` is total (it
  catches every collaborator exception), so it returns a plain
  `PurchaseOutcome` recording the result value together with the list of
  `makePayment` and `reserveSeats` invocations (each as an
  `(accountId, argument)` pair, in call order).
* `console.log` / `console.error` lines are ignored: they do not affect
  the result or the collaborator calls.
-/

namespace CinemaTickets

/-- The immutable list `#Type = ['ADULT', 'CHILD', 'INFANT']` of valid
ticket types from `TicketTypeRequest.js`. -/
def validTicketTypes : List String := ["ADULT", "CHILD", "INFANT"]

/-- A constructed `TicketTypeRequest`: private fields `#type` and
`#noOfTickets`.  The class exposes no mutator, so a value of this
structure never changes after construction. -/
structure TicketTypeRequest where
  type : String
  noOfTickets : Int

/-- Accessor `getTicketType()` of `TicketTypeRequest`. -/
def TicketTypeRequest.getTicketType (r : TicketTypeRequest) : String :=
  r.type

/-- Accessor `getNoOfTickets()` of `TicketTypeRequest`. -/
def TicketTypeRequest.getNoOfTickets (r : TicketTypeRequest) : Int :=
  r.noOfTickets

/-- The constructor of `TicketTypeRequest`: throws a `TypeError`
(modelled as `Except.error ()`) when the type is not in
`validTicketTypes` or when `Number.isInteger(noOfTickets)` is false
(`noOfTickets.den = 1` fails); otherwise stores both arguments. -/
def TicketTypeRequest.construct (type : String) (noOfTickets : Rat) :
    Except Unit TicketTypeRequest :=
  if ¬ validTicketTypes.contains type then
    Except.error ()
  else if ¬ noOfTickets.den = 1 then
    Except.error ()
  else
    Except.ok ⟨type, noOfTickets.num⟩

/-- The collaborator services handed to the `TicketService` constructor.
`makePayment` may return a boolean or throw; `reserveSeats` may return
(its value is never inspected) or throw. -/
structure TicketService where
  makePayment : Int → Int → Except Unit Bool
  reserveSeats : Int → Int → Except Unit Unit

/-- The price table `this.ticketPrices = { INFANT: 0, CHILD: 10,
ADULT: 20 }` set in the `TicketService` constructor.  Looking up any
other key yields `undefined` in JavaScript; such a key never occurs on a
constructed `TicketTypeRequest`, and the fallback here is 0. -/
def ticketPrices (t : String) : Int :=
  if t == "INFANT" then 0
  else if t == "CHILD" then 10
  else if t == "ADULT" then 20
  else 0

/-- The constant `this.maxTicketsPerPurchase = 20` set in the
`TicketService` constructor. -/
def maxTicketsPerPurchase : Int := 20

/-- The `totalQuantity` reduce inside `#isValidPurchaseRequest`:
`reduce((total, request) => total + request.getNoOfTickets(), 0)`. -/
def totalQuantity (reqs : List TicketTypeRequest) : Int :=
  reqs.foldl (fun total r => total + r.getNoOfTickets) 0

/-- The `hasAdultTicket` check inside `#isValidPurchaseRequest`:
`some((request) => request.getTicketType() === 'ADULT')`. -/
def hasAdultTicket (reqs : List TicketTypeRequest) : Bool :=
  reqs.any fun r => r.getTicketType == "ADULT"

/-- The private method `#isValidPurchaseRequest(ticketTypeRequests)`:
rejects when the total quantity exceeds `maxTicketsPerPurchase`, then
requires an ADULT entry and no CHILD/INFANT entry without an ADULT
entry. -/
def isValidPurchaseRequest (reqs : List TicketTypeRequest) : Bool :=
  if totalQuantity reqs > maxTicketsPerPurchase then
    false
  else
    let hasAdult := hasAdultTicket reqs
    let hasChildOrInfantWithoutAdult := reqs.any fun r =>
      (r.getTicketType == "CHILD" || r.getTicketType == "INFANT") && !hasAdult
    hasAdult && !hasChildOrInfantWithoutAdult

/-- The private method `#calculateTotalAmount(ticketTypeRequests)`:
`reduce((total, request) => total + ticketPrices[type] * quantity, 0)`. -/
def calculateTotalAmount (reqs : List TicketTypeRequest) : Int :=
  reqs.foldl (fun total r =>
    total + ticketPrices r.getTicketType * r.getNoOfTickets) 0

/-- The private method `#calculateNumSeatsToReserve(ticketTypeRequests)`:
`reduce((total, request) => total + (type !== 'INFANT' ? quantity : 0), 0)`. -/
def calculateNumSeatsToReserve (reqs : List TicketTypeRequest) : Int :=
  reqs.foldl (fun total r =>
    total + (if r.getTicketType ≠ "INFANT" then r.getNoOfTickets else 0)) 0

/-- The observable outcome of one `purchaseTickets` call: the returned
number, and the `(accountId, amount)` respectively `(accountId, seats)`
arguments of every `makePayment` and `reserveSeats` invocation. -/
structure PurchaseOutcome where
  result : Int
  paymentCalls : List (Int × Int)
  reserveCalls : List (Int × Int)
deriving DecidableEq, Repr

/-- The public method `purchaseTickets(accountId, ticketTypeRequests)`.
`numSeatsToReserve` starts at 0; an `accountId ≤ 0` or a failed
validation returns it unchanged with no collaborator call.  Otherwise
`makePayment(accountId, totalAmount)` is called inside the `try` block:
a thrown exception is caught (result still 0), a `false` return skips
reservation (result 0), and on `true` the seat count is assigned to
`numSeatsToReserve` before `reserveSeats(accountId, numSeats)` is
called, so a reservation exception is caught with the seat count already
in place. -/
def purchaseTickets (s : TicketService) (accountId : Int)
    (reqs : List TicketTypeRequest) : PurchaseOutcome :=
  if accountId ≤ 0 then
    ⟨0, [], []⟩
  else if ¬ isValidPurchaseRequest reqs then
    ⟨0, [], []⟩
  else
    let totalAmount := calculateTotalAmount reqs
    match s.makePayment accountId totalAmount with
    | Except.ok true =>
        let numSeats := calculateNumSeatsToReserve reqs
        match s.reserveSeats accountId numSeats with
        | Except.ok _ =>
            ⟨numSeats, [(accountId, totalAmount)], [(accountId, numSeats)]⟩
        | Except.error _ =>
            ⟨numSeats, [(accountId, totalAmount)], [(accountId, numSeats)]⟩
    | Except.ok false =>
        ⟨0, [(accountId, totalAmount)], []⟩
    | Except.error _ =>
        ⟨0, [(accountId, totalAmount)], []⟩

/-! ### Concrete collaborator stubs used by witnesses and counterexamples -/

/-- A service whose payment always succeeds and whose reservation always
returns normally (the mocks of the repository's test suite). -/
def alwaysOkService : TicketService :=
  ⟨fun _ _ => Except.ok true, fun _ _ => Except.ok ()⟩

/-- A service whose payment returns `false` (a declined payment). -/
def paymentFalseService : TicketService :=
  ⟨fun _ _ => Except.ok false, fun _ _ => Except.ok ()⟩

/-- A service whose payment call throws. -/
def paymentThrowService : TicketService :=
  ⟨fun _ _ => Except.error (), fun _ _ => Except.ok ()⟩

/-- A service whose payment succeeds but whose reservation call throws. -/
def reserveThrowService : TicketService :=
  ⟨fun _ _ => Except.ok true, fun _ _ => Except.error ()⟩

/-! ### Helper lemmas -/

/-- Evaluating a JavaScript `reduce` that adds `f request` at each step. -/
theorem foldl_add_map (f : TicketTypeRequest → Int) (l : List TicketTypeRequest)
    (init : Int) :
    l.foldl (fun total r => total + f r) init = init + (l.map f).sum := by
  induction l generalizing init with
  | nil => simp
  | cons x xs ih =>
      rw [List.foldl_cons, ih, List.map_cons, List.sum_cons]
      ring

/-- The validator accepts exactly the sequences within the quantity cap
that contain an ADULT entry: once some entry has type ADULT, the
`hasChildOrInfantWithoutAdult` conjunct is vacuously false. -/
theorem isValidPurchaseRequest_iff (reqs : List TicketTypeRequest) :
    isValidPurchaseRequest reqs = true ↔
      totalQuantity reqs ≤ maxTicketsPerPurchase ∧ hasAdultTicket reqs = true := by
  unfold isValidPurchaseRequest
  by_cases hq : totalQuantity reqs > maxTicketsPerPurchase
  · rw [if_pos hq]
    simp only [Bool.false_eq_true, false_iff, not_and]
    intro h
    omega
  · rw [if_neg hq]
    cases hA : hasAdultTicket reqs
    · simp
    · simp [hA]
      omega

/-- With a positive account and a valid request, `purchaseTickets` is the
payment dispatch: the outcome depends only on what `makePayment` returns
for the computed amount (a reservation exception does not change the
outcome record). -/
theorem purchaseTickets_of_valid (s : TicketService) (accountId : Int)
    (reqs : List TicketTypeRequest) (ha : 0 < accountId)
    (hv : isValidPurchaseRequest reqs = true) :
    purchaseTickets s accountId reqs =
      match s.makePayment accountId (calculateTotalAmount reqs) with
      | Except.ok true =>
          ⟨calculateNumSeatsToReserve reqs,
           [(accountId, calculateTotalAmount reqs)],
           [(accountId, calculateNumSeatsToReserve reqs)]⟩
      | Except.ok false =>
          ⟨0, [(accountId, calculateTotalAmount reqs)], []⟩
      | Except.error _ =>
          ⟨0, [(accountId, calculateTotalAmount reqs)], []⟩ := by
  unfold purchaseTickets
  rw [if_neg (not_le.mpr ha), if_neg (by simp [hv])]
  cases hp : s.makePayment accountId (calculateTotalAmount reqs) with
  | error e => simp only [hp]
  | ok b =>
      cases b
      · simp only [hp]
      · simp only [hp]
        cases hr : s.reserveSeats accountId (calculateNumSeatsToReserve reqs) <;>
          simp only [hr]

/-- Rejections before the payment step produce the empty outcome. -/
theorem purchaseTickets_of_invalid (s : TicketService) (accountId : Int)
    (reqs : List TicketTypeRequest) (hv : isValidPurchaseRequest reqs = false) :
    purchaseTickets s accountId reqs = ⟨0, [], []⟩ := by
  unfold purchaseTickets
  by_cases ha : accountId ≤ 0
  · rw [if_pos ha]
  · rw [if_neg ha, if_pos (by simp [hv])]

/-! ### Spec-side definitions, written from the spec's words for comparison
with the embedded code -/

/-- Unit price per ticket type as the spec states it: INFANT = 0,
CHILD = 10, ADULT = 20 (definition follows the spec's words). -/
def specUnitPrice (t : String) : Int :=
  if t = "ADULT" then 20
  else if t = "CHILD" then 10
  else 0

/-- Total charge as the spec states it: sum over all entries of
unitPrice[type] × quantity (definition follows the spec's words). -/
def specTotalCharge (reqs : List TicketTypeRequest) : Int :=
  (reqs.map fun r => specUnitPrice r.getTicketType * r.getNoOfTickets).sum

/-- Seat count as the spec states it: sum of quantities over all entries
whose type is not INFANT (definition follows the spec's words). -/
def specSeatCount (reqs : List TicketTypeRequest) : Int :=
  (reqs.map fun r => if r.getTicketType = "INFANT" then 0 else r.getNoOfTickets).sum

/-- The code's price table agrees with the spec's price table on every
type string (both fall back to 0 off the three recognized types). -/
theorem ticketPrices_eq_spec (t : String) : ticketPrices t = specUnitPrice t := by
  unfold ticketPrices specUnitPrice
  by_cases h1 : t = "INFANT" <;> by_cases h2 : t = "CHILD" <;>
    by_cases h3 : t = "ADULT" <;> simp [h1, h2, h3]

/-- The code's amount reduce equals the spec's charge sum. -/
theorem calculateTotalAmount_eq_spec (reqs : List TicketTypeRequest) :
    calculateTotalAmount reqs = specTotalCharge reqs := by
  unfold calculateTotalAmount specTotalCharge
  rw [foldl_add_map]
  rw [zero_add]
  have h : (fun r : TicketTypeRequest =>
      ticketPrices r.getTicketType * r.getNoOfTickets) =
      fun r : TicketTypeRequest => specUnitPrice r.getTicketType * r.getNoOfTickets :=
    funext fun r => by rw [ticketPrices_eq_spec]
  rw [h]

/-- The code's seat reduce equals the spec's seat sum (the two
conditionals are the same test with the branches swapped). -/
theorem calculateNumSeatsToReserve_eq_spec (reqs : List TicketTypeRequest) :
    calculateNumSeatsToReserve reqs = specSeatCount reqs := by
  unfold calculateNumSeatsToReserve specSeatCount
  rw [foldl_add_map]
  rw [zero_add]
  have h : (fun r : TicketTypeRequest =>
      if r.getTicketType ≠ "INFANT" then r.getNoOfTickets else 0) =
      fun r : TicketTypeRequest =>
        if r.getTicketType = "INFANT" then 0 else r.getNoOfTickets :=
    funext fun r => by by_cases hI : r.getTicketType = "INFANT" <;> simp [hI]
  rw [h]

/-! ### Claim theorems -/

/-- C1: for every accountId > 0 and every request sequence that passes
validation, when the payment collaborator reports success,
`purchaseTickets` returns the sum of quantities over all non-INFANT
entries, calls `makePayment` exactly once with the amount
Σ unitPrice[type] × quantity (INFANT = 0, CHILD = 10, ADULT = 20), and
calls `reserveSeats` exactly once with that same seat count. -/
theorem purchase_success_outcome (s : TicketService) (accountId : Int)
    (reqs : List TicketTypeRequest) (ha : 0 < accountId)
    (hv : isValidPurchaseRequest reqs = true)
    (hp : s.makePayment accountId (calculateTotalAmount reqs) = Except.ok true) :
    purchaseTickets s accountId reqs =
      ⟨specSeatCount reqs, [(accountId, specTotalCharge reqs)],
       [(accountId, specSeatCount reqs)]⟩ := by
  rw [purchaseTickets_of_valid s accountId reqs ha hv, hp,
    calculateTotalAmount_eq_spec, calculateNumSeatsToReserve_eq_spec]

/-- Witness for C1: the spec's first scenario, accountId 123 with
(ADULT, 2) and (CHILD, 1) — three seats, a 50-unit charge. -/
theorem purchase_success_outcome_witness :
    purchaseTickets alwaysOkService 123 [⟨"ADULT", 2⟩, ⟨"CHILD", 1⟩] =
      ⟨3, [(123, 50)], [(123, 3)]⟩ :=
  (purchase_success_outcome alwaysOkService 123 [⟨"ADULT", 2⟩, ⟨"CHILD", 1⟩]
    (by decide) (by decide) rfl).trans (by decide)

/-- C5: for every accountId > 0, a request sequence whose total quantity
exceeds 20 is rejected with no collaborator call, while a total of
exactly 20 does not trigger the cap rejection (with an ADULT entry
present, validation succeeds — the cap is inclusive). -/
theorem purchase_rejects_over_cap (s : TicketService) (accountId : Int)
    (reqs : List TicketTypeRequest) (ha : 0 < accountId) :
    (totalQuantity reqs > 20 → purchaseTickets s accountId reqs = ⟨0, [], []⟩) ∧
    (totalQuantity reqs = 20 → hasAdultTicket reqs = true →
      isValidPurchaseRequest reqs = true) := by
  constructor
  · intro hq
    apply purchaseTickets_of_invalid
    cases hval : isValidPurchaseRequest reqs
    · rfl
    · rw [isValidPurchaseRequest_iff] at hval
      unfold maxTicketsPerPurchase at hval
      omega
  · intro h20 hAd
    rw [isValidPurchaseRequest_iff]
    refine ⟨?_, hAd⟩
    unfold maxTicketsPerPurchase
    omega

/-- Witness for C5: a single (ADULT, 21) entry is rejected with no
collaborator call, matching the spec's fourth scenario. -/
theorem purchase_rejects_over_cap_witness :
    purchaseTickets alwaysOkService 123 [⟨"ADULT", 21⟩] = ⟨0, [], []⟩ :=
  (purchase_rejects_over_cap alwaysOkService 123 [⟨"ADULT", 21⟩] (by decide)).1
    (by decide)

/-- C6: for every accountId ≤ 0 and every request sequence whatsoever,
`purchaseTickets` returns 0 and calls neither `makePayment` nor
`reserveSeats`. -/
theorem purchase_rejects_nonpositive_account (s : TicketService) (accountId : Int)
    (reqs : List TicketTypeRequest) (ha : accountId ≤ 0) :
    purchaseTickets s accountId reqs = ⟨0, [], []⟩ := by
  unfold purchaseTickets
  rw [if_pos ha]

/-- Witness for C6: accountId 0 with a request that would otherwise be
valid, matching the spec's third scenario. -/
theorem purchase_rejects_nonpositive_account_witness :
    purchaseTickets alwaysOkService 0 [⟨"ADULT", 1⟩] = ⟨0, [], []⟩ :=
  purchase_rejects_nonpositive_account alwaysOkService 0 [⟨"ADULT", 1⟩] (by decide)

/-- C7: for every accountId > 0 and every validated request sequence, a
`false` return from `makePayment` means `reserveSeats` is never invoked
and the result is 0; and whenever `reserveSeats` was invoked at all,
`makePayment` had returned success for the computed amount
(pay-before-reserve ordering). -/
theorem payment_failure_skips_reservation (s : TicketService) (accountId : Int)
    (reqs : List TicketTypeRequest) (ha : 0 < accountId)
    (hv : isValidPurchaseRequest reqs = true) :
    (s.makePayment accountId (calculateTotalAmount reqs) = Except.ok false →
      purchaseTickets s accountId reqs =
        ⟨0, [(accountId, calculateTotalAmount reqs)], []⟩) ∧
    ((purchaseTickets s accountId reqs).reserveCalls ≠ [] →
      s.makePayment accountId (calculateTotalAmount reqs) = Except.ok true) := by
  have hmain := purchaseTickets_of_valid s accountId reqs ha hv
  constructor
  · intro hp
    rw [hmain, hp]
  · intro hr
    cases hp : s.makePayment accountId (calculateTotalAmount reqs) with
    | error e =>
        rw [hmain, hp] at hr
        simp at hr
    | ok b =>
        cases b
        · rw [hmain, hp] at hr
          simp at hr
        · rfl

/-- Witness for C7: a declined payment on (ADULT, 2) yields 0 with one
payment call of 40 and no reservation call, matching the spec's sixth
scenario. -/
theorem payment_failure_skips_reservation_witness :
    purchaseTickets paymentFalseService 123 [⟨"ADULT", 2⟩] =
      ⟨0, [(123, 40)], []⟩ :=
  ((payment_failure_skips_reservation paymentFalseService 123 [⟨"ADULT", 2⟩]
    (by decide) (by decide)).1 rfl).trans (by decide)

/-- C2 counterexample: the sequence [(ADULT, 0), (CHILD, 5)] contains a
CHILD entry and no ADULT entry with quantity > 0, yet it passes
validation (the validator only tests the presence of an ADULT entry, not
its quantity), both collaborators are invoked and the result is 5 — the
claim demanded 0 with no collaborator call. -/
theorem child_without_positive_adult_counterexample :
    (∃ r ∈ ([⟨"ADULT", 0⟩, ⟨"CHILD", 5⟩] : List TicketTypeRequest),
      r.getTicketType = "CHILD" ∨ r.getTicketType = "INFANT") ∧
    (∀ r ∈ ([⟨"ADULT", 0⟩, ⟨"CHILD", 5⟩] : List TicketTypeRequest),
      ¬ (r.getTicketType = "ADULT" ∧ r.getNoOfTickets > 0)) ∧
    purchaseTickets alwaysOkService 1 [⟨"ADULT", 0⟩, ⟨"CHILD", 5⟩] =
      ⟨5, [(1, 50)], [(1, 5)]⟩ := by
  decide

/-- C2 amended: for every accountId > 0 and every request sequence that
contains a CHILD or INFANT entry but contains no ADULT entry at all,
`purchaseTickets` returns 0 and calls neither `makePayment` nor
`reserveSeats` (an ADULT entry of any quantity, 0 included, already
satisfies the validator's adult-presence check). -/
theorem purchase_rejects_child_without_adult (s : TicketService) (accountId : Int)
    (reqs : List TicketTypeRequest) (ha : 0 < accountId)
    (hc : ∃ r ∈ reqs, r.getTicketType = "CHILD" ∨ r.getTicketType = "INFANT")
    (hA : ∀ r ∈ reqs, r.getTicketType ≠ "ADULT") :
    purchaseTickets s accountId reqs = ⟨0, [], []⟩ := by
  apply purchaseTickets_of_invalid
  have hAd : hasAdultTicket reqs = false := by
    unfold hasAdultTicket
    simp only [List.any_eq_false]
    intro r hr
    simp [hA r hr]
  cases hval : isValidPurchaseRequest reqs
  · rfl
  · rw [isValidPurchaseRequest_iff] at hval
    rw [hAd] at hval
    exact absurd hval.2 (by simp)

/-- Witness for the amended C2: a lone (CHILD, 1) entry is rejected with
no collaborator call, matching the spec's fifth scenario. -/
theorem purchase_rejects_child_without_adult_witness :
    purchaseTickets alwaysOkService 123 [⟨"CHILD", 1⟩] = ⟨0, [], []⟩ :=
  purchase_rejects_child_without_adult alwaysOkService 123 [⟨"CHILD", 1⟩]
    (by decide) (by decide) (by decide)

/-- C3 counterexample: the constructor only runs `Number.isInteger` on
the quantity, so the negative integer −5 is accepted: construction with
(ADULT, −5) succeeds and stores −5, where the claim demanded a
construction error for every negative quantity. -/
theorem construct_negative_counterexample :
    ((-5 : Rat) < 0) ∧
    TicketTypeRequest.construct "ADULT" (-5) = Except.ok ⟨"ADULT", -5⟩ := by
  exact ⟨by decide, rfl⟩

/-- C3 amended: constructing a `TicketTypeRequest` fails if and only if
the type is not one of ADULT, CHILD, INFANT, or the quantity is not a
whole number — negative integers are accepted (the source never checks
the sign). -/
theorem construct_error_iff (type : String) (q : Rat) :
    TicketTypeRequest.construct type q = Except.error () ↔
      type ∉ validTicketTypes ∨ q.den ≠ 1 := by
  unfold TicketTypeRequest.construct
  by_cases h1 : type ∈ validTicketTypes <;> by_cases h2 : q.den = 1
  · rw [if_neg (by simp [List.elem_iff, h1]), if_neg (by simp [h2])]
    simp [h1, h2]
  · rw [if_neg (by simp [List.elem_iff, h1]), if_pos (by simp [h2])]
    simp [h2]
  · rw [if_pos (by simp [List.elem_iff, h1])]
    simp [h1]
  · rw [if_pos (by simp [List.elem_iff, h1])]
    simp [h1]

/-- C4 counterexample: with a valid request (ADULT, 2), a successful
payment and a throwing `reserveSeats`, `purchaseTickets` returns 2
(`numSeatsToReserve` is assigned before the reservation call, so the
catch block leaves it in place) — the claim demanded 0. -/
theorem collaborator_exception_counterexample :
    reserveThrowService.reserveSeats 1 2 = Except.error () ∧
    purchaseTickets reserveThrowService 1 [⟨"ADULT", 2⟩] =
      ⟨2, [(1, 40)], [(1, 2)]⟩ :=
  ⟨rfl, by decide⟩

/-- C4 amended: for every accountId > 0 and every validated request
sequence, a collaborator exception is caught and never propagates
(`purchaseTickets` always returns an outcome): if `makePayment` throws,
the result is 0 and `reserveSeats` is not invoked; if `makePayment`
succeeds and `reserveSeats` throws, the result is the already-computed
seat count, not 0. -/
theorem collaborator_exception_absorbed (s : TicketService) (accountId : Int)
    (reqs : List TicketTypeRequest) (ha : 0 < accountId)
    (hv : isValidPurchaseRequest reqs = true) :
    (s.makePayment accountId (calculateTotalAmount reqs) = Except.error () →
      purchaseTickets s accountId reqs =
        ⟨0, [(accountId, calculateTotalAmount reqs)], []⟩) ∧
    (s.makePayment accountId (calculateTotalAmount reqs) = Except.ok true →
      s.reserveSeats accountId (calculateNumSeatsToReserve reqs) = Except.error () →
      purchaseTickets s accountId reqs =
        ⟨calculateNumSeatsToReserve reqs, [(accountId, calculateTotalAmount reqs)],
         [(accountId, calculateNumSeatsToReserve reqs)]⟩) := by
  have hmain := purchaseTickets_of_valid s accountId reqs ha hv
  constructor
  · intro hp
    rw [hmain, hp]
  · intro hp _
    rw [hmain, hp]

/-- Witness for the amended C4: a throwing payment on (ADULT, 2) yields
0 with one payment call of 40 and no reservation call. -/
theorem collaborator_exception_absorbed_witness :
    purchaseTickets paymentThrowService 1 [⟨"ADULT", 2⟩] = ⟨0, [(1, 40)], []⟩ :=
  ((collaborator_exception_absorbed paymentThrowService 1 [⟨"ADULT", 2⟩]
    (by decide) (by decide)).1 rfl).trans (by decide)

/-- C8 counterexample: the sequence [(ADULT, 0)] has total quantity 0,
yet it passes validation and both collaborators are invoked (payment
with amount 0, reservation with 0 seats) — the claim demanded an invalid
purchase with no collaborator call. -/
theorem zero_total_counterexample :
    totalQuantity [⟨"ADULT", 0⟩] = 0 ∧
    isValidPurchaseRequest [⟨"ADULT", 0⟩] = true ∧
    purchaseTickets alwaysOkService 1 [⟨"ADULT", 0⟩] = ⟨0, [(1, 0)], [(1, 0)]⟩ := by
  decide

/-- C8 amended: for every accountId > 0 and every request sequence of
total quantity 0, the purchase is rejected with no collaborator call
when the sequence has no ADULT entry (the empty sequence included), but
a zero-total sequence that does contain an ADULT entry passes validation
(collaborators are then invoked). -/
theorem zero_total_behavior (s : TicketService) (accountId : Int)
    (reqs : List TicketTypeRequest) (ha : 0 < accountId)
    (hz : totalQuantity reqs = 0) :
    (hasAdultTicket reqs = false → purchaseTickets s accountId reqs = ⟨0, [], []⟩) ∧
    (hasAdultTicket reqs = true → isValidPurchaseRequest reqs = true) := by
  constructor
  · intro hA
    apply purchaseTickets_of_invalid
    cases hval : isValidPurchaseRequest reqs
    · rfl
    · rw [isValidPurchaseRequest_iff] at hval
      rw [hA] at hval
      exact absurd hval.2 (by simp)
  · intro hA
    rw [isValidPurchaseRequest_iff]
    refine ⟨?_, hA⟩
    unfold maxTicketsPerPurchase
    omega

/-- Witness for the amended C8: the empty sequence is rejected with no
collaborator call. -/
theorem zero_total_behavior_witness :
    purchaseTickets alwaysOkService 1 ([] : List TicketTypeRequest) = ⟨0, [], []⟩ :=
  (zero_total_behavior alwaysOkService 1 [] (by decide) (by decide)).1 rfl

/-- C9: for every recognized type and every integer quantity,
construction succeeds and stores exactly the two arguments:
`getTicketType` returns the type and `getNoOfTickets` the quantity.  The
class exposes no mutator, so the stored value (a `TicketTypeRequest`
structure value here) never changes afterwards. -/
theorem construct_roundtrip (type : String) (n : Int)
    (ht : type ∈ validTicketTypes) :
    TicketTypeRequest.construct type (n : Rat) = Except.ok ⟨type, n⟩ ∧
    TicketTypeRequest.getTicketType ⟨type, n⟩ = type ∧
    TicketTypeRequest.getNoOfTickets ⟨type, n⟩ = n := by
  refine ⟨?_, rfl, rfl⟩
  unfold TicketTypeRequest.construct
  rw [if_neg (by simp [List.elem_iff, ht]), if_neg (by simp)]
  simp

/-- Witness for C9: (CHILD, 7) constructs and reads back unchanged. -/
theorem construct_roundtrip_witness :
    TicketTypeRequest.construct "CHILD" ((7 : Int) : Rat) =
      Except.ok ⟨"CHILD", 7⟩ :=
  (construct_roundtrip "CHILD" 7 (by decide)).1

/-- C10: the input accountId = 1 with the single entry (ADULT, −5)
passes validation (−5 ≤ 20 and an ADULT entry is present), so
`makePayment` is called with the negative amount −100 and, payment
succeeding, `purchaseTickets` returns the negative seat count −5. -/
theorem negative_quantity_accepted :
    isValidPurchaseRequest [⟨"ADULT", -5⟩] = true ∧
    purchaseTickets alwaysOkService 1 [⟨"ADULT", -5⟩] =
      ⟨-5, [(1, -100)], [(1, -5)]⟩ ∧
    ((-100 : Int) < 0 ∧ (-5 : Int) < 0) := by
  decide

end CinemaTickets
